import Mathlib

/-!
Verification of the finding-correlation and chain-synthesis pipeline of
`chain_detector.py` (bugbounty-framework).  The Python functions
`fetch_all_findings`, `analyze_vulnerability_chains` (its response-shape
extraction and host batching), `update_database_with_chains`,
`save_chain_analysis`, `generate_markdown_report` and `analyze_chain_roi`
are shallowly embedded below.  JSON values produced by `json.loads` are
modelled by the inductive type `JVal`; Python exceptions raised by the
embedded fragments (`AttributeError`, `TypeError`, sqlite3
`InterfaceError`) are modelled by `Except PyErr`.  The SQLite database is
modelled as explicit state (`DB`) holding the `findings` and `chains`
tables as lists of rows.
-/

/-- Python exceptions that the embedded code fragments can raise. -/
inductive PyErr where
  | attributeError
  | typeError
  | interfaceError
deriving DecidableEq

/-- A JSON value as produced by `json.loads`: `null`, booleans, integers,
strings, arrays and objects.  (The pipeline never manipulates fractional
numbers, so JSON numbers are modelled as integers.) -/
inductive JVal where
  | null
  | bool (b : Bool)
  | int (n : Int)
  | str (s : String)
  | arr (l : List JVal)
  | obj (l : List (String × JVal))

/-- A candidate chain object returned by the analysis capability: a Python
dict, modelled as its key/value entries (keys are unique in a dict). -/
def Candidate : Type := List (String × JVal)

/-- Python `d.get(k, default)` on a dict, modelled on the entry list. -/
def dictGet (c : List (String × JVal)) (k : String) (d : JVal) : JVal :=
  match List.lookup k c with
  | some v => v
  | none => d

/-- Python truthiness of a JSON value (`bool(v)`). -/
def pyFalsy : JVal → Bool
  | .null => true
  | .bool b => !b
  | .int n => n == 0
  | .str s => s.isEmpty
  | .arr l => l.isEmpty
  | .obj l => l.isEmpty

/-- Python `isinstance(v, list)`. -/
def pyIsList : JVal → Bool
  | .arr _ => true
  | _ => false

/-- Iterating a Python value: arrays yield their elements, strings their
characters (as one-character strings), dicts their keys; numbers, booleans
and `None` raise `TypeError`. -/
def pyIterElems : JVal → Except PyErr (List JVal)
  | .arr l => .ok l
  | .str s => .ok (s.data.map (fun ch => .str (String.mk [ch])))
  | .obj l => .ok (l.map (fun kv => .str kv.1))
  | _ => .error .typeError

mutual

/-- Python `str(v)`: strings are returned as-is, other values via `repr`. -/
def pyStr : JVal → String
  | .str s => s
  | v => pyRepr v

/-- Python `repr(v)` for JSON-shaped values (string-quote escaping inside
`repr` is not modelled; no claim evaluates `repr` on a string containing a
quote). -/
def pyRepr : JVal → String
  | .null => "None"
  | .bool true => "True"
  | .bool false => "False"
  | .int n => toString n
  | .str s => "\x27" ++ s ++ "\x27"
  | .arr l => "[" ++ pyReprItems l ++ "]"
  | .obj l => "\x7b" ++ pyReprEntries l ++ "\x7d"

/-- Comma-joined `repr`s of list elements. -/
def pyReprItems : List JVal → String
  | [] => ""
  | [v] => pyRepr v
  | v :: vs => pyRepr v ++ ", " ++ pyReprItems vs

/-- Comma-joined `repr`s of dict entries. -/
def pyReprEntries : List (String × JVal) → String
  | [] => ""
  | [(k, v)] => "\x27" ++ k ++ "\x27: " ++ pyRepr v
  | (k, v) :: es => "\x27" ++ k ++ "\x27: " ++ pyRepr v ++ ", " ++ pyReprEntries es

end

/-- Python `sep.join(parts)` for a list of strings. -/
def joinSep (sep : String) : List String → String
  | [] => ""
  | [x] => x
  | x :: xs => x ++ sep ++ joinSep sep xs

/-- Python `s.lower()` (ASCII scope, which covers every severity the
pipeline compares). -/
def pyLower (s : String) : String := String.mk (s.data.map Char.toLower)

/-- Python `v.lower()`: only strings have a `lower` method. -/
def pyLowerV : JVal → Except PyErr String
  | .str s => .ok (pyLower s)
  | _ => .error .attributeError

/-- A row of the `findings` table (columns from `ai_triage.py`; the
ROI columns added by `db_migrate_roi.py` are never read by the chain
pipeline and are omitted).  SQLite `REAL` confidence is modelled exactly
as a rational; no claim computes with it. -/
structure FindingRow where
  id : Int
  target : String
  host : String
  vulnerability : String
  severity : String
  confidence : Rat
  date : String
  status : String
deriving DecidableEq

/-- A row of the `chains` table as inserted by
`update_database_with_chains` (the `id` AUTOINCREMENT key is the list
position and is not modelled as a field).  `finding_ids` and
`original_severities` are the comma-joined TEXT columns; the remaining
payload columns hold whatever Python value was bound. -/
structure ChainRow where
  target : String
  host : JVal
  name : JVal
  description : JVal
  finding_ids : String
  original_severities : String
  combined_severity : JVal
  technical_details : JVal
  business_impact : JVal
  evidence_requirements : JVal
  date_identified : String

/-- The SQLite database `bugbounty.db`: the `findings` and `chains`
tables, rows in rowid order. -/
structure DB where
  findings : List FindingRow
  chains : List ChainRow

/-- The per-finding dict built by `fetch_all_findings` for each row of the
`SELECT id, host, vulnerability, severity, confidence` query. -/
structure FindingInfo where
  id : Int
  vulnerability : String
  severity : String
  confidence : Rat
deriving DecidableEq

/-- One step of the host-grouping loop of `fetch_all_findings`: append the
finding to its host bucket, creating the bucket at the end on first
occurrence (Python dict insertion order). -/
def addRow (host : String) (info : FindingInfo) :
    List (String × List FindingInfo) → List (String × List FindingInfo)
  | [] => [(host, [info])]
  | (h, fs) :: tl =>
    if h = host then (h, fs ++ [info]) :: tl else (h, fs) :: addRow host info tl

/-- The `findings_by_host` grouping loop of `fetch_all_findings`. -/
def group_by_host (rows : List FindingRow) : List (String × List FindingInfo) :=
  rows.foldl (fun acc r => addRow r.host ⟨r.id, r.vulnerability, r.severity, r.confidence⟩ acc) []

/-- `fetch_all_findings(target)`: select the target's rows with
`status = 'triaged'`, group them by host, and drop every host with fewer
than `min_findings` findings (`args.min_findings`, default 2). -/
def fetch_all_findings (db : DB) (target : String) (min_findings : Nat) :
    List (String × List FindingInfo) :=
  let rows := db.findings.filter (fun f => f.target == target && f.status == "triaged")
  if rows.isEmpty then []
  else (group_by_host rows).filter (fun p => min_findings ≤ p.2.length)

/-- The host batching of `analyze_vulnerability_chains`:
`host_items[i:i+batch_size]` for `i in range(0, len(host_items), 5)`. -/
def host_batches (host_items : List (String × List FindingInfo)) :
    List (List (String × List FindingInfo)) :=
  let batch_size := 5
  (List.range ((host_items.length + batch_size - 1) / batch_size)).map
    (fun b => (host_items.drop (batch_size * b)).take batch_size)

/-- The `severity_values` ROI table of `analyze_chain_roi`. -/
def severity_values : List (String × Nat × Nat) :=
  [("low", 50, 250), ("medium", 250, 1500), ("high", 1500, 5000), ("critical", 5000, 25000)]

/-- The per-chain body of the `analyze_chain_roi` loop: lower-case the
chain's `combined_severity` and look it up in `severity_values`; `some`
is reported as an `$min-$max` estimate line, `none` as `N/A`. -/
def chain_roi (chain : Candidate) : Except PyErr (Option (Nat × Nat)) := do
  let s ← pyLowerV (dictGet chain "combined_severity" (.str ""))
  pure (List.lookup s severity_values)

/-- `analyze_chain_roi(chains)`: the estimates of all chains in order (the
loop raises at the first chain whose severity value has no `lower`). -/
def analyze_chain_roi (chains : List Candidate) : Except PyErr (List (Option (Nat × Nat))) :=
  chains.mapM chain_roi

theorem strExt {s t : String} (h : s.data = t.data) : s = t := by
  cases s; cases t; exact congrArg String.mk h

theorem lookup_none_of_not_mem_keys {α : Type} (k : String) (l : List (String × α))
    (h : k ∉ l.map Prod.fst) : List.lookup k l = none := by
  induction l with
  | nil => rfl
  | cons hd tl ih =>
    simp only [List.map_cons, List.mem_cons] at h
    push_neg at h
    simp only [List.lookup]
    rw [show (k == hd.1) = false from beq_eq_false_iff_ne.mpr h.1]
    exact ih h.2

theorem addRow_keys (host : String) (info : FindingInfo)
    (acc : List (String × List FindingInfo)) :
    (addRow host info acc).map Prod.fst =
      if host ∈ acc.map Prod.fst then acc.map Prod.fst else acc.map Prod.fst ++ [host] := by
  induction acc with
  | nil => simp [addRow]
  | cons hd tl ih =>
    obtain ⟨h, fs⟩ := hd
    by_cases hh : h = host
    · subst hh
      simp [addRow]
    · simp only [addRow, if_neg hh, List.map_cons, ih, List.mem_cons]
      by_cases hm : host ∈ tl.map Prod.fst
      · simp [hm, Ne.symm hh]
      · simp [hm, Ne.symm hh]

theorem addRow_keys_nodup (host : String) (info : FindingInfo)
    (acc : List (String × List FindingInfo)) (h : (acc.map Prod.fst).Nodup) :
    ((addRow host info acc).map Prod.fst).Nodup := by
  rw [addRow_keys]
  by_cases hm : host ∈ acc.map Prod.fst
  · simpa [hm] using h
  · simp only [hm, if_false]
    simp [List.nodup_append, h, hm]

theorem group_by_host_aux_nodup (rows : List FindingRow) :
    ∀ acc : List (String × List FindingInfo), (acc.map Prod.fst).Nodup →
      ((rows.foldl (fun acc r => addRow r.host ⟨r.id, r.vulnerability, r.severity, r.confidence⟩ acc) acc).map Prod.fst).Nodup := by
  induction rows with
  | nil => intro acc h; simpa using h
  | cons r tl ih =>
    intro acc h
    exact ih _ (addRow_keys_nodup r.host _ acc h)

theorem group_by_host_keys_nodup (rows : List FindingRow) :
    ((group_by_host rows).map Prod.fst).Nodup :=
  group_by_host_aux_nodup rows [] (by simp)

theorem join_range_take {α : Type} (l : List α) :
    ∀ n : Nat, ((List.range n).map (fun b => (l.drop (5 * b)).take 5)).flatten = l.take (5 * n) := by
  intro n
  induction n with
  | zero => simp
  | succ k ih =>
    rw [List.range_succ, List.map_append, List.flatten_append]
    simp only [List.map_cons, List.map_nil, List.flatten_cons, List.flatten_nil, List.append_nil, ih]
    rw [show 5 * (k + 1) = 5 * k + 5 by ring, List.take_add]

theorem host_batches_flatten (l : List (String × List FindingInfo)) :
    (host_batches l).flatten = l := by
  unfold host_batches
  rw [join_range_take]
  exact List.take_of_length_le (by omega)

theorem host_batches_size (l : List (String × List FindingInfo)) :
    ∀ b ∈ host_batches l, b.length ≤ 5 := by
  intro b hb
  simp only [host_batches, List.mem_map, List.mem_range] at hb
  obtain ⟨i, _, rfl⟩ := hb
  simp [List.length_take]

theorem fetch_all_findings_min (db : DB) (target : String) (m : Nat) :
    ∀ p ∈ fetch_all_findings db target m, m ≤ p.2.length := by
  intro p hp
  simp only [fetch_all_findings] at hp
  split at hp
  · simp at hp
  · have := List.of_mem_filter hp
    simpa using this

theorem fetch_all_findings_keys_nodup (db : DB) (target : String) (m : Nat) :
    ((fetch_all_findings db target m).map Prod.fst).Nodup := by
  simp only [fetch_all_findings]
  split
  · simp
  · exact ((group_by_host_keys_nodup _).sublist
      ((List.filter_sublist _).map Prod.fst))

/-- Requires a Python value to be a string (the element check performed by
`str.join`). -/
def pyStrOnly : JVal → Except PyErr String
  | .str s => .ok s
  | _ => .error .typeError

/-- The element-wise string check of `str.join`: every element of the
iterable must be a string, else `TypeError`. -/
def strJoinElems : List JVal → Except PyErr (List String)
  | [] => .ok []
  | v :: vs => do
    let s ← pyStrOnly v
    let rest ← strJoinElems vs
    pure (s :: rest)

/-- Python `','.join(v)`: `v` must be iterable and every element a string,
else `TypeError`. -/
def pyJoinComma (v : JVal) : Except PyErr String := do
  let elems ← pyIterElems v
  let strs ← strJoinElems elems
  pure (joinSep "," strs)

/-- Python `[str(f) for f in v]`: `v` must be iterable; `str` itself is
total. -/
def pyStrList (v : JVal) : Except PyErr (List String) := do
  let elems ← pyIterElems v
  pure (elems.map pyStr)

/-- Binding a Python value as an sqlite3 statement parameter: `None`,
booleans, numbers and strings are supported; lists and dicts raise
`InterfaceError`. -/
def pyBind : JVal → Except PyErr JVal
  | .arr _ => .error .interfaceError
  | .obj _ => .error .interfaceError
  | v => .ok v

/-- The body of the per-chain loop of `update_database_with_chains`: build
the comma-joined `finding_ids` and `original_severities` columns, then the
INSERT parameter tuple, every field read with `chain.get` and a default.
`now` is the `datetime.now().isoformat()` read at the insert. -/
def processChain (target now : String) (chain : Candidate) : Except PyErr ChainRow := do
  let fid_strs ← pyStrList (dictGet chain "finding_ids" (.arr []))
  let finding_ids := joinSep "," fid_strs
  let original_severities ← pyJoinComma (dictGet chain "original_severities" (.arr []))
  let host ← pyBind (dictGet chain "host" (.str ""))
  let name ← pyBind (dictGet chain "name" (.str ""))
  let description ← pyBind (dictGet chain "description" (.str ""))
  let combined_severity ← pyBind (dictGet chain "combined_severity" (.str ""))
  let technical_details ← pyBind (dictGet chain "technical_details" (.str ""))
  let business_impact ← pyBind (dictGet chain "business_impact" (.str ""))
  let evidence_requirements ← pyBind (dictGet chain "evidence_requirements" (.str ""))
  pure { target := target, host := host, name := name, description := description,
         finding_ids := finding_ids, original_severities := original_severities,
         combined_severity := combined_severity, technical_details := technical_details,
         business_impact := business_impact, evidence_requirements := evidence_requirements,
         date_identified := now }

/-- `update_database_with_chains(chains, target)`: on an empty list return
0 without touching the store; otherwise insert each chain that processes
without an exception (a failing chain is logged and skipped, `count` not
incremented) and commit once at the end.  Returns the new database state
and the `count` of inserted chains. -/
def update_database_with_chains (chains : List Candidate) (target now : String)
    (db : DB) : DB × Nat :=
  if chains.isEmpty then (db, 0)
  else
    let res := chains.foldl
      (fun (acc : List ChainRow × Nat) chain =>
        match processChain target now chain with
        | .ok row => (acc.1 ++ [row], acc.2 + 1)
        | .error _ => acc)
      ([], 0)
    ({ db with chains := db.chains ++ res.1 }, res.2)

/-- The response-shape extraction step of `analyze_vulnerability_chains`
(the code between `json.loads` and `all_chains.extend`):
`chains = result.get("chains", [])`, the `isinstance(result, list)` branch,
the `"results" in result` branch, then `all_chains.extend(chains)`.
Calling `.get` on a non-dict raises `AttributeError`. -/
def extract_chains (result : JVal) : Except PyErr (List JVal) := do
  let chains ←
    match result with
    | .obj l => Except.ok (dictGet l "chains" (.arr []))
    | _ => Except.error PyErr.attributeError
  let chains ←
    if pyFalsy chains && pyIsList result then pure result
    else if pyFalsy chains then
      match result with
      | .obj l =>
        if (l.map Prod.fst).contains "results" then pure (dictGet l "results" (.arr []))
        else pure chains
      | _ => pure chains
    else pure chains
  pyIterElems chains

/-- A lowercase hexadecimal digit. -/
def hexDigit (n : Nat) : Char :=
  if n < 10 then Char.ofNat (48 + n) else Char.ofNat (87 + n)

/-- Four lowercase hex digits of a code unit. -/
def hex4 (n : Nat) : String :=
  String.mk [hexDigit (n / 4096 % 16), hexDigit (n / 256 % 16), hexDigit (n / 16 % 16), hexDigit (n % 16)]

/-- The `\uXXXX` escape of a character (surrogate pair above U+FFFF), as
emitted by `json.dump` with its default `ensure_ascii=True`. -/
def uEscape (c : Char) : String :=
  let n := c.toNat
  if n < 65536 then "\\u" ++ hex4 n
  else "\\u" ++ hex4 (55296 + (n - 65536) / 1024) ++ "\\u" ++ hex4 (56320 + (n - 65536) % 1024)

/-- JSON escaping of one character (`json.dump` defaults). -/
def escChar (c : Char) : String :=
  if c = Char.ofNat 34 then "\\\""
  else if c = Char.ofNat 92 then "\\\\"
  else if c = Char.ofNat 10 then "\\n"
  else if c = Char.ofNat 13 then "\\r"
  else if c = Char.ofNat 9 then "\\t"
  else if c = Char.ofNat 8 then "\\b"
  else if c = Char.ofNat 12 then "\\f"
  else if c.toNat < 32 || 126 < c.toNat then uEscape c
  else String.mk [c]

/-- JSON escaping of a string body. -/
def jsonEscape (s : String) : String :=
  joinSep "" (s.data.map escChar)

/-- A serialized JSON string literal. -/
def dumpStr (s : String) : String :=
  "\"" ++ jsonEscape s ++ "\""

/-- `n` spaces. -/
def spaces (n : Nat) : String := String.mk (List.replicate n (Char.ofNat 32))

mutual

/-- Python `json.dump(v, f, indent=2)` at indentation level `ind`:
containers open on their own line, members indented two further spaces,
the closing bracket back at `ind`; empty containers print inline. -/
def dumpVal : JVal → Nat → String
  | .null, _ => "null"
  | .bool true, _ => "true"
  | .bool false, _ => "false"
  | .int n, _ => toString n
  | .str s, _ => dumpStr s
  | .arr [], _ => "[]"
  | .arr (v :: vs), ind =>
    "[\n" ++ joinSep ",\n" (dumpItems (v :: vs) (ind + 2)) ++ "\n" ++ spaces ind ++ "]"
  | .obj [], _ => "\x7b\x7d"
  | .obj (e :: es), ind =>
    "\x7b\n" ++ joinSep ",\n" (dumpEntries (e :: es) (ind + 2)) ++ "\n" ++ spaces ind ++ "\x7d"

/-- The serialized members of an array, each on its own indented line. -/
def dumpItems : List JVal → Nat → List String
  | [], _ => []
  | v :: vs, ind => (spaces ind ++ dumpVal v ind) :: dumpItems vs ind

/-- The serialized `"key": value` members of an object. -/
def dumpEntries : List (String × JVal) → Nat → List String
  | [], _ => []
  | (k, v) :: es, ind => (spaces ind ++ dumpStr k ++ ": " ++ dumpVal v ind) :: dumpEntries es ind

end

/-- `save_chain_analysis(chains, target)`: the exact text written to
`chain_analysis.json`, i.e. `json.dump({"target": target, "analysis_date":
now, "chains": chains}, f, indent=2)` where `now` is
`datetime.now().isoformat()` read during the call. -/
def save_chain_analysis (chains : List JVal) (target now : String) : String :=
  dumpVal (.obj [("target", .str target), ("analysis_date", .str now), ("chains", .arr chains)]) 0

/-- The `', '.join(f"Finding #..." ...)` component-vulnerability line of
`generate_markdown_report`: `zip` raises `TypeError` when either value is
not iterable. -/
def componentLine (fids sevs : JVal) : Except PyErr String := do
  let xs ← pyIterElems fids
  let ys ← pyIterElems sevs
  pure (joinSep ", " ((List.zip xs ys).map
    (fun p => "Finding #" ++ pyStr p.1 ++ " (" ++ pyStr p.2 ++ ")")))

/-- One `### Chain i` section of the Markdown report, every field read
with `chain.get` and a placeholder default (template transcribed byte for
byte from `generate_markdown_report`). -/
def mdChainSection (i : Nat) (chain : Candidate) : Except PyErr String := do
  let comp ← componentLine (dictGet chain "finding_ids" (.arr []))
    (dictGet chain "original_severities" (.arr []))
  pure ("### Chain " ++ toString i ++ ": " ++ pyStr (dictGet chain "name" (.str "Unnamed Chain"))
    ++ "\n\n**Host:** " ++ pyStr (dictGet chain "host" (.str "Unknown"))
    ++ "  \n**Combined Severity:** " ++ pyStr (dictGet chain "combined_severity" (.str "Unknown"))
    ++ "\n\n**Description:**  \n" ++ pyStr (dictGet chain "description" (.str "No description provided."))
    ++ "\n\n**Attack Path:**  \n" ++ pyStr (dictGet chain "attack_path" (.str "No attack path provided."))
    ++ "\n\n**Technical Details:**  \n" ++ pyStr (dictGet chain "technical_details" (.str "No technical details provided."))
    ++ "\n\n**Business Impact:**  \n" ++ pyStr (dictGet chain "business_impact" (.str "No business impact provided."))
    ++ "\n\n**Evidence Requirements:**  \n" ++ pyStr (dictGet chain "evidence_requirements" (.str "No evidence requirements provided."))
    ++ "\n\n**Component Vulnerabilities:**  \n" ++ comp
    ++ "\n\n---\n\n")

/-- The report header of `generate_markdown_report`; `now` is
`datetime.now().strftime("%Y-%m-%d %H:%M:%S")` read during the call. -/
def mdHeader (target now : String) (n : Nat) : String :=
  "# Vulnerability Chain Analysis for " ++ target
    ++ "\n    \n*Generated on: " ++ now
    ++ "*\n\n## Summary\n\nThis report identifies " ++ toString n
    ++ " potential vulnerability chains that could be leveraged for increased impact. Each chain combines multiple lower-severity findings into a higher-severity attack path.\n\n## Identified Chains\n\n"

/-- The chain sections of the report, `enumerate(chains, 1)` order. -/
def mdSections (chains : List Candidate) : Except PyErr (List String) :=
  (List.enumFrom 1 chains).mapM (fun ic => mdChainSection ic.1 ic.2)

/-- The full Markdown report text built by `generate_markdown_report` for
a non-empty chain list. -/
def mdReportText (chains : List Candidate) (target now : String) : Except PyErr String :=
  (mdSections chains).map (fun secs => mdHeader target now chains.length ++ joinSep "" secs)

/-- `generate_markdown_report(chains, target)`: `None` on an empty list,
otherwise the report text (or the exception the rendering raises). -/
def generate_markdown_report (chains : List Candidate) (target now : String) :
    Option (Except PyErr String) :=
  if chains.isEmpty then none else some (mdReportText chains target now)

theorem strJoinElems_str (l : List String) :
    strJoinElems (l.map JVal.str) = Except.ok l := by
  induction l with
  | nil => rfl
  | cons x xs ih => simp [strJoinElems, ih, pyStrOnly, bind, Except.bind, pure, Except.pure]

theorem pyJoinComma_strs (l : List String) :
    pyJoinComma (.arr (l.map .str)) = Except.ok (joinSep "," l) := by
  simp [pyJoinComma, pyIterElems, strJoinElems_str, bind, Except.bind, pure, Except.pure]

theorem pyStrList_ints (l : List Int) :
    pyStrList (.arr (l.map .int)) = Except.ok (l.map (fun n => toString n)) := by
  simp [pyStrList, pyIterElems, bind, Except.bind, pure, Except.pure, List.map_map]
  exact fun n _ => rfl

/-- Claim C1 (amended): `update_database_with_chains` never touches the
`findings` table — no referenced Finding's status is set to `chained`;
every Finding keeps all of its fields whether referenced or not. -/
theorem update_database_with_chains_preserves_findings
    (chains : List Candidate) (target now : String) (db : DB) :
    (update_database_with_chains chains target now db).1.findings = db.findings := by
  unfold update_database_with_chains
  split <;> rfl

/-- Claim C1 counterexample: a batch whose single chain references
finding 1 (status `triaged`) is persisted (the chains table row carries
`finding_ids = "1"`), yet finding 1 still has status `triaged`, not
`chained`, after the call. -/
theorem update_database_with_chains_no_status_transition :
    ((update_database_with_chains
        [[("host", JVal.str "A"), ("finding_ids", JVal.arr [JVal.int 1]),
          ("combined_severity", JVal.str "high")]]
        "acme.io" "2024-01-01T00:00:00"
        ⟨[⟨1, "acme.io", "A", "xss", "low", 1, "2024-01-01", "triaged"⟩], []⟩).1.chains.map
          ChainRow.finding_ids = ["1"]) ∧
    ((update_database_with_chains
        [[("host", JVal.str "A"), ("finding_ids", JVal.arr [JVal.int 1]),
          ("combined_severity", JVal.str "high")]]
        "acme.io" "2024-01-01T00:00:00"
        ⟨[⟨1, "acme.io", "A", "xss", "low", 1, "2024-01-01", "triaged"⟩], []⟩).1.findings.map
          FindingRow.status = ["triaged"]) := by
  decide

/-- Claim C2 (amended): persisting the same logical chain twice is not
idempotent — each call performs a plain INSERT, so the chains table ends
with two identical rows for that chain. -/
theorem update_database_with_chains_duplicates
    (c : Candidate) (target now : String) (db : DB) (row : ChainRow)
    (h : processChain target now c = .ok row) :
    (update_database_with_chains [c] target now
        (update_database_with_chains [c] target now db).1).1.chains
      = db.chains ++ [row, row] := by
  simp [update_database_with_chains, h]

theorem update_database_with_chains_duplicates_witness :
    (update_database_with_chains
        [[("host", JVal.str "A"), ("finding_ids", JVal.arr [JVal.int 1, JVal.int 2])]]
        "acme.io" "N"
        (update_database_with_chains
          [[("host", JVal.str "A"), ("finding_ids", JVal.arr [JVal.int 1, JVal.int 2])]]
          "acme.io" "N" ⟨[], []⟩).1).1.chains
      = [⟨"acme.io", .str "A", .str "", .str "", "1,2", "", .str "", .str "", .str "", .str "", "N"⟩,
         ⟨"acme.io", .str "A", .str "", .str "", "1,2", "", .str "", .str "", .str "", .str "", "N"⟩] :=
  update_database_with_chains_duplicates _ _ _ _ _ rfl

/-- Claim C2 counterexample: persisting the identical chain (same target
`acme.io`, host `A`, sorted `finding_ids` `1,2`) twice leaves two rows for
it in the chains table, not exactly one. -/
theorem update_database_with_chains_two_rows :
    (((update_database_with_chains
        [[("host", JVal.str "A"), ("finding_ids", JVal.arr [JVal.int 1, JVal.int 2])]]
        "acme.io" "N"
        (update_database_with_chains
          [[("host", JVal.str "A"), ("finding_ids", JVal.arr [JVal.int 1, JVal.int 2])]]
          "acme.io" "N" ⟨[], []⟩).1).1.chains.map
            (fun r => (r.target, pyStr r.host, r.finding_ids))).count
        ("acme.io", "A", "1,2")) ≠ 1 := by
  decide

/-- Claim C3 (amended): persistence performs no validation against the
findings store at all — the result of `update_database_with_chains` does
not depend on the `findings` table, so a candidate whose `finding_ids`
reference no existing Finding is inserted like any other. -/
theorem update_database_with_chains_ignores_findings
    (chains : List Candidate) (target now : String)
    (f₁ f₂ : List FindingRow) (cs : List ChainRow) :
    (update_database_with_chains chains target now ⟨f₁, cs⟩).1.chains
        = (update_database_with_chains chains target now ⟨f₂, cs⟩).1.chains ∧
    (update_database_with_chains chains target now ⟨f₁, cs⟩).2
        = (update_database_with_chains chains target now ⟨f₂, cs⟩).2 := by
  by_cases h : chains.isEmpty <;> simp [update_database_with_chains, h]

/-- Claim C3 counterexample: the target's findings store holds only
finding 1, yet a candidate chain with `finding_ids=[99]` is persisted
rather than dropped, leaving a chains-table row referencing id 99. -/
theorem update_database_with_chains_unknown_id_persisted :
    ((update_database_with_chains
        [[("host", JVal.str "A"), ("finding_ids", JVal.arr [JVal.int 99])]]
        "acme.io" "N"
        ⟨[⟨1, "acme.io", "A", "sqli", "low", 1, "2024-01-01", "triaged"⟩], []⟩).1.chains.map
          ChainRow.finding_ids = ["99"]) ∧
    ((⟨[⟨1, "acme.io", "A", "sqli", "low", 1, "2024-01-01", "triaged"⟩], []⟩ : DB).findings.map
        FindingRow.id = [1]) := by
  decide

/-- Claim C4 (amended): persistence of a batch is per-chain, not atomic —
a chain whose processing raises is logged and skipped while every other
chain of the batch is inserted and committed, so a batch with one good and
one failing chain ends with exactly the good chain's row and count 1. -/
theorem update_database_with_chains_partial
    (target now : String) (db : DB) (good bad : Candidate) (row : ChainRow) (e : PyErr)
    (hg : processChain target now good = .ok row)
    (hb : processChain target now bad = .error e) :
    update_database_with_chains [good, bad] target now db
      = ({ db with chains := db.chains ++ [row] }, 1) := by
  simp [update_database_with_chains, hg, hb]

theorem update_database_with_chains_partial_witness :
    update_database_with_chains
        [[("finding_ids", JVal.arr [JVal.int 1])],
         [("original_severities", JVal.arr [JVal.int 5])]]
        "acme.io" "N" ⟨[], []⟩
      = ({ findings := [],
           chains := [⟨"acme.io", .str "", .str "", .str "", "1", "", .str "", .str "", .str "", .str "", "N"⟩] }, 1) :=
  update_database_with_chains_partial "acme.io" "N" ⟨[], []⟩ _ _ _ PyErr.typeError rfl rfl

/-- Claim C4 counterexample: a batch of two chains in which the second
raises (its `original_severities` holds a non-string, so `','.join`
raises `TypeError`) persists the first chain anyway — some but not all
chains of the batch end up in the chains table. -/
theorem update_database_with_chains_not_atomic :
    ((update_database_with_chains
        [[("finding_ids", JVal.arr [JVal.int 1])],
         [("original_severities", JVal.arr [JVal.int 5])]]
        "acme.io" "N" ⟨[], []⟩).1.chains.map ChainRow.finding_ids = ["1"]) ∧
    ((update_database_with_chains
        [[("finding_ids", JVal.arr [JVal.int 1])],
         [("original_severities", JVal.arr [JVal.int 5])]]
        "acme.io" "N" ⟨[], []⟩).2 = 1) := by
  decide

/-- Claim C5 (code bug evidence): the extraction step accepts
`{"chains": [...]}` and `{"results": [...]}` and returns the same chain
list for both, but a bare top-level JSON array raises `AttributeError`
(`result.get` is called before the `isinstance(result, list)` check, so
the direct-array branch the code comments describe is unreachable); the
batch is then skipped as a soft failure instead of yielding its chains. -/
theorem extract_chains_shapes (l cs : List JVal) :
    extract_chains (.arr l) = .error .attributeError ∧
    extract_chains (.obj [("chains", .arr cs)]) = .ok cs ∧
    extract_chains (.obj [("results", .arr cs)]) = .ok cs := by
  refine ⟨rfl, ?_, rfl⟩
  cases cs <;> rfl

/-- Claim C6 (amended): for a candidate whose `original_severities` length
differs from its `finding_ids` length, no truncation is performed and no
lowercasing happens: both sequences are stored comma-joined in full and
`combined_severity` is stored verbatim. -/
theorem processChain_no_truncation
    (t now host name desc csev td bi er : String)
    (fids : List Int) (sevs : List String)
    (hlen : sevs.length ≠ fids.length) :
    processChain t now
      [("host", .str host), ("name", .str name), ("description", .str desc),
       ("finding_ids", .arr (fids.map .int)), ("original_severities", .arr (sevs.map .str)),
       ("combined_severity", .str csev), ("technical_details", .str td),
       ("business_impact", .str bi), ("evidence_requirements", .str er)]
      = .ok ⟨t, .str host, .str name, .str desc, joinSep "," (fids.map (fun n => toString n)),
             joinSep "," sevs, .str csev, .str td, .str bi, .str er, now⟩ := by
  have hA : dictGet
      [("host", .str host), ("name", .str name), ("description", .str desc),
       ("finding_ids", .arr (fids.map .int)), ("original_severities", .arr (sevs.map .str)),
       ("combined_severity", .str csev), ("technical_details", .str td),
       ("business_impact", .str bi), ("evidence_requirements", .str er)]
      "finding_ids" (.arr []) = .arr (fids.map .int) := rfl
  have hB : dictGet
      [("host", .str host), ("name", .str name), ("description", .str desc),
       ("finding_ids", .arr (fids.map .int)), ("original_severities", .arr (sevs.map .str)),
       ("combined_severity", .str csev), ("technical_details", .str td),
       ("business_impact", .str bi), ("evidence_requirements", .str er)]
      "original_severities" (.arr []) = .arr (sevs.map .str) := rfl
  simp only [processChain, hA, hB, pyStrList_ints, pyJoinComma_strs]
  rfl

theorem processChain_no_truncation_witness :
    processChain "acme.io" "2024-01-01T00:00:00"
      [("host", .str "A"), ("name", .str "Chain"), ("description", .str "d"),
       ("finding_ids", .arr ([(1 : Int), 2].map .int)),
       ("original_severities", .arr (["low", "med", "high"].map .str)),
       ("combined_severity", .str "HIGH"), ("technical_details", .str "td"),
       ("business_impact", .str "bi"), ("evidence_requirements", .str "er")]
      = .ok ⟨"acme.io", .str "A", .str "Chain", .str "d",
             joinSep "," ([(1 : Int), 2].map (fun n => toString n)),
             joinSep "," ["low", "med", "high"], .str "HIGH", .str "td", .str "bi", .str "er",
             "2024-01-01T00:00:00"⟩ :=
  processChain_no_truncation "acme.io" "2024-01-01T00:00:00" "A" "Chain" "d" "HIGH" "td" "bi" "er"
    [1, 2] ["low", "med", "high"] (by decide)

/-- Claim C6 counterexample: the spec scenario — `finding_ids=[1,2]`,
`original_severities=["low","med","high"]`, `combined_severity="HIGH"` —
is stored with `original_severities = "low,med,high"` (no truncation to
`low,med`) and `combined_severity = "HIGH"` (no lowercasing). -/
theorem processChain_stores_untruncated :
    ((processChain "acme.io" "2024-01-01T00:00:00"
        [("host", JVal.str "A"), ("finding_ids", JVal.arr [JVal.int 1, JVal.int 2]),
         ("original_severities", JVal.arr [JVal.str "low", JVal.str "med", JVal.str "high"]),
         ("combined_severity", JVal.str "HIGH")]).toOption.map
          (fun r => (r.original_severities, pyStr r.combined_severity))
      = some ("low,med,high", "HIGH")) ∧
    ((processChain "acme.io" "2024-01-01T00:00:00"
        [("host", JVal.str "A"), ("finding_ids", JVal.arr [JVal.int 1, JVal.int 2]),
         ("original_severities", JVal.arr [JVal.str "low", JVal.str "med", JVal.str "high"]),
         ("combined_severity", JVal.str "HIGH")]).toOption.map
          (fun r => (r.original_severities, pyStr r.combined_severity))
      ≠ some ("low,med", "high")) := by
  decide

/-- Claim C8: the batch planner of `fetch_all_findings` and
`analyze_vulnerability_chains` — every retained host keeps at least
`min_findings` findings; retained hosts are pairwise distinct; the batches
partition the retained host sequence in order (flattening them restores it
exactly); every batch holds at most 5 hosts; and an empty host set yields
an empty batch list rather than an error. -/
theorem batch_planner_spec (db : DB) (target : String) (m : Nat) :
    ((fetch_all_findings db target m).all (fun p => m ≤ p.2.length) = true) ∧
    ((fetch_all_findings db target m).map Prod.fst).Nodup ∧
    ((host_batches (fetch_all_findings db target m)).flatten = fetch_all_findings db target m) ∧
    ((host_batches (fetch_all_findings db target m)).all (fun b => b.length ≤ 5) = true) ∧
    host_batches [] = [] := by
  refine ⟨?_, fetch_all_findings_keys_nodup db target m, host_batches_flatten _, ?_, rfl⟩
  · rw [List.all_eq_true]
    intro p hp
    simpa using fetch_all_findings_min db target m p hp
  · rw [List.all_eq_true]
    intro b hb
    simpa using host_batches_size _ b hb

/-- Claim C9: the ROI estimate lower-cases `combined_severity` and looks
it up in the fixed table `low ⇒ 50..250`, `medium ⇒ 250..1500`,
`high ⇒ 1500..5000`, `critical ⇒ 5000..25000`; a severity outside the
table (such as `informational`, or the empty default of a missing field)
yields `none` (reported as `N/A`) and the computation returns without
raising for every string severity. -/
theorem chain_roi_table (c : Candidate) (s : String)
    (h : dictGet c "combined_severity" (.str "") = .str s) :
    chain_roi c = .ok (List.lookup (pyLower s) severity_values) ∧
    List.lookup "low" severity_values = some (50, 250) ∧
    List.lookup "medium" severity_values = some (250, 1500) ∧
    List.lookup "high" severity_values = some (1500, 5000) ∧
    List.lookup "critical" severity_values = some (5000, 25000) ∧
    List.lookup "informational" severity_values = none ∧
    List.lookup "" severity_values = none := by
  refine ⟨?_, by decide, by decide, by decide, by decide, by decide, by decide⟩
  simp [chain_roi, h, pyLowerV, bind, Except.bind, pure, Except.pure]

theorem chain_roi_table_witness :
    chain_roi [("combined_severity", JVal.str "Critical")]
      = .ok (List.lookup (pyLower "Critical") severity_values) ∧
    List.lookup "low" severity_values = some (50, 250) ∧
    List.lookup "medium" severity_values = some (250, 1500) ∧
    List.lookup "high" severity_values = some (1500, 5000) ∧
    List.lookup "critical" severity_values = some (5000, 25000) ∧
    List.lookup "informational" severity_values = none ∧
    List.lookup "" severity_values = none :=
  chain_roi_table [("combined_severity", JVal.str "Critical")] "Critical" rfl

set_option maxRecDepth 8192 in
/-- Claim C10: persistence and Markdown rendering are total for a
candidate with missing fields — every field is read with a default, so a
candidate carrying none of the fields is still inserted (empty strings,
empty joins) and rendered with the placeholder texts (`Unnamed Chain`,
`Unknown`, ...) instead of raising. -/
theorem chain_fields_total (t now : String) (c : Candidate) (i : Nat) (db : DB)
    (h : ∀ k, List.lookup k c = none) :
    processChain t now c
      = .ok ⟨t, .str "", .str "", .str "", "", "", .str "", .str "", .str "", .str "", now⟩ ∧
    update_database_with_chains [c] t now db
      = ({ db with chains := db.chains ++
            [⟨t, .str "", .str "", .str "", "", "", .str "", .str "", .str "", .str "", now⟩] }, 1) ∧
    mdChainSection i c = mdChainSection i [] ∧
    mdChainSection 1 []
      = .ok "### Chain 1: Unnamed Chain\n\n**Host:** Unknown  \n**Combined Severity:** Unknown\n\n**Description:**  \nNo description provided.\n\n**Attack Path:**  \nNo attack path provided.\n\n**Technical Details:**  \nNo technical details provided.\n\n**Business Impact:**  \nNo business impact provided.\n\n**Evidence Requirements:**  \nNo evidence requirements provided.\n\n**Component Vulnerabilities:**  \n\n\n---\n\n" := by
  have hg : ∀ k d, dictGet c k d = d := fun k d => by simp [dictGet, h k]
  have hp : processChain t now c
      = .ok ⟨t, .str "", .str "", .str "", "", "", .str "", .str "", .str "", .str "", now⟩ := by
    simp [processChain, hg, pyStrList, pyIterElems, strJoinElems, pyJoinComma, joinSep, pyBind,
      bind, Except.bind, pure, Except.pure]
  have hnil : ∀ (k : String) (d : JVal), dictGet ([] : Candidate) k d = d := fun k d => rfl
  refine ⟨hp, ?_, ?_, rfl⟩
  · simp [update_database_with_chains, hp]
  · simp only [mdChainSection, componentLine, hg, hnil]

set_option maxRecDepth 8192 in
theorem chain_fields_total_witness :
    processChain "acme.io" "2024-01-01T00:00:00" []
      = .ok ⟨"acme.io", .str "", .str "", .str "", "", "", .str "", .str "", .str "", .str "",
             "2024-01-01T00:00:00"⟩ ∧
    update_database_with_chains [[]] "acme.io" "2024-01-01T00:00:00" ⟨[], []⟩
      = ({ findings := [], chains :=
            [⟨"acme.io", .str "", .str "", .str "", "", "", .str "", .str "", .str "", .str "",
              "2024-01-01T00:00:00"⟩] }, 1) ∧
    mdChainSection 1 [] = mdChainSection 1 [] ∧
    mdChainSection 1 []
      = .ok "### Chain 1: Unnamed Chain\n\n**Host:** Unknown  \n**Combined Severity:** Unknown\n\n**Description:**  \nNo description provided.\n\n**Attack Path:**  \nNo attack path provided.\n\n**Technical Details:**  \nNo technical details provided.\n\n**Business Impact:**  \nNo business impact provided.\n\n**Evidence Requirements:**  \nNo evidence requirements provided.\n\n**Component Vulnerabilities:**  \n\n\n---\n\n" :=
  chain_fields_total "acme.io" "2024-01-01T00:00:00" [] 1 ⟨[], []⟩ (fun k => rfl)

theorem dumpVal_obj_cons (e : String × JVal) (es : List (String × JVal)) (ind : Nat) :
    dumpVal (.obj (e :: es)) ind
      = "\x7b\n" ++ joinSep ",\n" (dumpEntries (e :: es) (ind + 2)) ++ "\n" ++ spaces ind ++ "\x7d" := rfl

theorem dumpVal_str (s : String) (ind : Nat) : dumpVal (.str s) ind = dumpStr s := rfl

theorem dumpEntries_cons (k : String) (v : JVal) (es : List (String × JVal)) (ind : Nat) :
    dumpEntries ((k, v) :: es) ind
      = (spaces ind ++ dumpStr k ++ ": " ++ dumpVal v ind) :: dumpEntries es ind := rfl

theorem dumpEntries_nil (ind : Nat) : dumpEntries [] ind = [] := rfl

set_option maxRecDepth 8192 in
theorem save_chain_analysis_data (chains : List JVal) (target now : String)
    (h : jsonEscape now = now) :
    (save_chain_analysis chains target now).data
      = ("\x7b\n" ++ spaces 2 ++ dumpStr "target" ++ ": " ++ dumpStr target ++ ",\n"
          ++ spaces 2 ++ dumpStr "analysis_date" ++ ": " ++ "\"").data
        ++ (now.data
        ++ ("\"" ++ ",\n" ++ spaces 2 ++ dumpStr "chains" ++ ": " ++ dumpVal (.arr chains) 2
          ++ "\n" ++ spaces 0 ++ "\x7d").data) := by
  simp [save_chain_analysis, dumpVal_obj_cons, dumpEntries_cons, dumpEntries_nil, dumpVal_str,
    joinSep, dumpStr, h, String.data_append, List.append_assoc]

set_option maxRecDepth 8192 in
theorem mdReport_header_data (target now : String) (n : Nat) (rest : String) :
    (mdHeader target now n ++ rest).data
      = ("# Vulnerability Chain Analysis for " ++ target ++ "\n    \n*Generated on: ").data
        ++ (now.data
        ++ ("*\n\n## Summary\n\nThis report identifies " ++ toString n
          ++ " potential vulnerability chains that could be leveraged for increased impact. Each chain combines multiple lower-severity findings into a higher-severity attack path.\n\n## Identified Chains\n\n" ++ rest).data) := by
  simp [mdHeader, String.data_append, List.append_assoc]

/-- Claim C7 (amended): the Report Synthesizer is deterministic only up to
the wall-clock timestamp it embeds: for a fixed chain set and target, the
JSON document and the Markdown report are byte-identical exactly when the
embedded generation timestamps coincide — two runs at different times
produce different bytes (the `now` strings are embedded verbatim; the
hypotheses restrict them to JSON-escape-free strings, which every
`datetime` timestamp is). -/
theorem report_outputs_time_dependent
    (chains : List JVal) (mchains : List Candidate) (target now now2 : String)
    (secs : List String)
    (h1 : jsonEscape now = now) (h2 : jsonEscape now2 = now2)
    (h3 : mdSections mchains = .ok secs) :
    ((save_chain_analysis chains target now = save_chain_analysis chains target now2) ↔ now = now2) ∧
    ((mdReportText mchains target now = mdReportText mchains target now2) ↔ now = now2) := by
  constructor
  · constructor
    · intro h
      have hd := congrArg String.data h
      rw [save_chain_analysis_data chains target now h1,
        save_chain_analysis_data chains target now2 h2] at hd
      exact strExt (List.append_cancel_right (List.append_cancel_left hd))
    · intro h; rw [h]
  · constructor
    · intro h
      simp only [mdReportText, h3, Except.map, Except.ok.injEq] at h
      have hd := congrArg String.data h
      rw [mdReport_header_data target now _ _, mdReport_header_data target now2 _ _] at hd
      exact strExt (List.append_cancel_right (List.append_cancel_left hd))
    · intro h; rw [h]

theorem report_outputs_time_dependent_witness :
    ((save_chain_analysis [] "acme.io" "2024-01-01T00:00:00"
        = save_chain_analysis [] "acme.io" "2024-01-01T00:00:01")
      ↔ ("2024-01-01T00:00:00" : String) = "2024-01-01T00:00:01") ∧
    ((mdReportText [] "acme.io" "2024-01-01T00:00:00"
        = mdReportText [] "acme.io" "2024-01-01T00:00:01")
      ↔ ("2024-01-01T00:00:00" : String) = "2024-01-01T00:00:01") :=
  report_outputs_time_dependent [] [] "acme.io" "2024-01-01T00:00:00" "2024-01-01T00:00:01" []
    (by decide) (by decide) rfl

/-- Claim C7 counterexample: two runs over the identical persisted chain
set and target, one second apart, give different JSON bytes and different
Markdown bytes — the outputs embed `datetime.now()`, so they are not a
pure function of the chain set. -/
theorem report_outputs_differ :
    (save_chain_analysis [JVal.obj [("host", JVal.str "A")]] "acme.io" "2024-01-01T00:00:00"
      ≠ save_chain_analysis [JVal.obj [("host", JVal.str "A")]] "acme.io" "2024-01-01T00:00:01") ∧
    ((mdReportText [[("host", JVal.str "A")]] "acme.io" "2024-01-01 00:00:00").toOption
      ≠ (mdReportText [[("host", JVal.str "A")]] "acme.io" "2024-01-01 00:00:01").toOption) := by
  decide
